import Mathlib

/-
Verification development for the Basilisp nREPL MCP bridge
(src/basilisp_mcp_bridge.py).

Bytes are modelled as Lean `String`s (one `Char` per byte); the payloads the
claims are about are ASCII, where Python's `str.encode` / `bytes.decode` are
the identity at the character level, so the byte/character distinction is
immaterial for the decided properties.
-/

namespace NreplBridge

/--
A Python value as it can appear in a request mapping handed to the bencode
encoder: a string, an integer, a boolean, a (scalar) list, or a value of any
other type (float, dict, ...), for which the encoder's if/elif chain has no
branch at all.
-/
inductive PyVal where
  | str (s : String)
  | int (n : Int)
  | bool (b : Bool)
  | list (l : List PyVal)
  | other

/--
`bencode_encode_list` from the source (lines 50-60): concatenates the
encodings of the string/integer elements of a list; elements of any other
type contribute nothing (there is no else branch).

Note on booleans: in Python, `bool` is a subclass of `int`, so
`isinstance(item, int)` is already true for `True`/`False` and the
`elif isinstance(item, bool)` branch is unreachable.  The reached branch
renders `f"i{item}e"`, and `str(True) = "True"`, `str(False) = "False"`,
so a boolean actually encodes as `iTruee` / `iFalsee`.
-/
def bencode_encode_list : List PyVal → String
  | [] => ""
  | item :: rest =>
    (match item with
     | PyVal.str s => toString s.length ++ ":" ++ s
     | PyVal.int n => "i" ++ toString n ++ "e"
     | PyVal.bool b => "i" ++ (if b then "True" else "False") ++ "e"
     | _ => "") ++ bencode_encode_list rest

/--
Encoding of a single dictionary value, mirroring the if/elif chain in
`bencode_encode` (lines 39-46 of src/basilisp_mcp_bridge.py).  The same
`isinstance(v, int)`-before-`bool` shadowing as in `bencode_encode_list`
applies: booleans are caught by the integer branch and render as
`iTruee` / `iFalsee`.  A value of an unhandled type (float, dict, ...)
matches no branch and contributes nothing.
-/
def bencode_encode_val : PyVal → String
  | PyVal.str s => toString s.length ++ ":" ++ s
  | PyVal.int n => "i" ++ toString n ++ "e"
  | PyVal.bool b => "i" ++ (if b then "True" else "False") ++ "e"
  | PyVal.list l => "l" ++ bencode_encode_list l ++ "e"
  | PyVal.other => ""

/--
Body of the `for k, v in data.items()` loop of `bencode_encode`
(lines 37-46): each entry contributes the key marker
`str(len(str(k))) + ":" + str(k)` unconditionally, followed by the value
encoding selected by the if/elif chain (which is empty when no branch
matches the value's type).
-/
def bencode_encode_entries : List (String × PyVal) → String
  | [] => ""
  | (k, v) :: rest =>
    toString k.length ++ ":" ++ k ++ bencode_encode_val v ++ bencode_encode_entries rest

/--
`bencode_encode` (lines 34-48): a dictionary encodes as `d`, the entries in
insertion order, then `e`.  Python dictionaries preserve insertion order, so
the mapping is modelled as an association list.
-/
def bencode_encode (data : List (String × PyVal)) : String :=
  "d" ++ bencode_encode_entries data ++ "e"

/-- Leading ASCII-digit run of a character list, split from the rest
(greedy `\d*`). -/
def takeDigits : List Char → List Char × List Char
  | [] => ([], [])
  | c :: rest =>
    if c.isDigit then
      let p := takeDigits rest
      (c :: p.1, p.2)
    else ([], c :: rest)

/-- Numeric value of a decimal-digit run, as Python's `int` on the matched
group (Python integers are unbounded, hence `Nat`). -/
def digitsToNat (l : List Char) : Nat :=
  l.foldl (fun a c => a * 10 + (c.toNat - 48)) 0

/--
Match of the regex tail `(\d+):` at the start of `l`: at least one digit,
taken greedily, then a colon.  Returns the parsed length and what follows
the colon.  (Greediness is exact here: if the maximal digit run is not
followed by `:`, no shorter run can be, because a digit cannot match `:`.)
-/
def matchLenField (l : List Char) : Option (Nat × List Char) :=
  let p := takeDigits l
  match p.1, p.2 with
  | [], _ => none
  | _ :: _, ':' :: rest => some (digitsToNat p.1, rest)
  | _ :: _, _ => none

/--
`re.search` for a pattern of the shape `<literal>(\d+):`, as used throughout
`parse_bencode_response`: try every start position left to right; at a
position the pattern matches when the literal is a prefix there and the
remainder starts with `(\d+):`.  Returns the group's value and the suffix
after the match end (the position `match.end()` points at).
-/
def scanField (pat : List Char) : List Char → Option (Nat × List Char)
  | [] => none
  | c :: rest =>
    match (if pat.isPrefixOf (c :: rest) then matchLenField ((c :: rest).drop pat.length) else none) with
    | some r => some r
    | none => scanField pat rest

/--
Field extraction as in `parse_bencode_response` (e.g. lines 75-80): search
for `<pat>(\d+):`, then take `length` bytes starting at the match end
(Python's `data[pos:pos+length]` truncates at the end of the buffer, exactly
like `List.take`) and decode them.
-/
def extractField (pat : String) (data : String) : Option String :=
  match scanField pat.toList data.toList with
  | some (len, rest) => some (String.mk (rest.take len))
  | none => none

/--
The `.*4:done` tail of the done-status regex: scan forward from the end of
`6:status`; `.` does not match a newline (no DOTALL flag), so the scan
succeeds only if `4:done` occurs before any newline.
-/
def findDoneAfter : List Char → Bool
  | [] => false
  | c :: rest =>
    if "4:done".toList.isPrefixOf (c :: rest) then true
    else if c = '\n' then false
    else findDoneAfter rest

/-- `re.search(br"6:status.*4:done", data)` (line 83): some occurrence of
`6:status` is followed, with no intervening newline, by `4:done`. -/
def statusDoneScan : List Char → Bool
  | [] => false
  | c :: rest =>
    if "6:status".toList.isPrefixOf (c :: rest) then
      if findDoneAfter ((c :: rest).drop 8) then true else statusDoneScan rest
    else statusDoneScan rest

/--
The dictionary built by `parse_bencode_response` (lines 62-102).  Each
field is present exactly when its regex matched; `status`, when present, is
always the list `["done"]`, so it is modelled as the Boolean
`statusDone` (`"status" in parsed and "done" in parsed["status"]`, line 165,
is exactly this flag).
-/
structure ParsedResponse where
  newSession : Option String
  value : Option String
  statusDone : Bool
  err : Option String
  rootEx : Option String
deriving DecidableEq, Repr

/-- `parse_bencode_response` (lines 62-102): five independent regex scans
over the whole buffer. -/
def parse_bencode_response (data : String) : ParsedResponse :=
  { newSession := extractField "11:new-session" data
  , value := extractField "5:value" data
  , statusDone := statusDoneScan data.toList
  , err := extractField "3:err" data
  , rootEx := extractField "7:root-ex" data }

/-- `make_session_request` (lines 104-110). -/
def make_session_request : String :=
  bencode_encode [("op", PyVal.str "clone"), ("verbose", PyVal.int 1), ("prompt", PyVal.int 1)]

/-- `make_eval_request` (lines 112-118). -/
def make_eval_request (code : String) (session_id : String) : String :=
  bencode_encode [("op", PyVal.str "eval"), ("code", PyVal.str code), ("session", PyVal.str session_id)]

/--
A socket-level fault raised during `send_to_nrepl`'s try block, one
constructor per except clause (lines 180-185): `socket.timeout`,
`ConnectionRefusedError`, or any other `Exception` carrying the text
`str(e)`.
-/
inductive SockFault where
  | timeout
  | connRefused
  | other (msg : String)
deriving DecidableEq, Repr

/-- The string each except clause of `send_to_nrepl` returns
(lines 180-185). -/
def describeFault : SockFault → String
  | SockFault.timeout => "Error: nREPL connection timed out"
  | SockFault.connRefused => "Error: nREPL connection refused. Is the nREPL server running?"
  | SockFault.other m => "Error: " ++ m

/--
The environment a `send_to_nrepl` call runs against: the outcome of
`connect` (line 137), the single-read session response (line 141) and the
successive results of the `recv` calls of the evaluate loop (line 157),
each either bytes or a raised fault.  (The `sendall` calls are modelled as
non-faulting; a fault there lands in the same except clauses and adds
nothing to the decided claims.)
-/
structure NetBehavior where
  connectFault : Option SockFault
  sessionResp : Except SockFault String
  evalRecv : Nat → Except SockFault String

/-- Observable socket actions of one `send_to_nrepl` call: a `sendall` of
the given bytes, or `close`. -/
inductive Action where
  | send (msg : String)
  | close
deriving DecidableEq, Repr

/-- Python truthiness test `not session_id` on the result of
`session_data.get("new-session")` (line 145): falsy when the key is absent
(`None`) or the session id is the empty string. -/
def optFalsy : Option String → Bool
  | none => true
  | some s => s = ""

/--
The evaluate read loop (lines 152-166), with `fuel = max_reads - reads`
(initially 100).  Each step performs one `recv` (indexed by call number),
stops on a raised fault, a zero-byte read, or when the parse of the
accumulated buffer reports a done status; otherwise it appends the chunk
and recurses.  Returns the final buffer (or the fault) together with the
number of `recv` calls performed.
-/
def readLoopAux (recv : Nat → Except SockFault String) : Nat → String → Nat → Except SockFault String × Nat
  | _, acc, 0 => (Except.ok acc, 0)
  | idx, acc, fuel + 1 =>
    match recv idx with
    | Except.error f => (Except.error f, 1)
    | Except.ok data =>
      if data = "" then (Except.ok acc, 1)
      else
        let acc2 := acc ++ data
        if (parse_bencode_response acc2).statusDone then (Except.ok acc2, 1)
        else
          let r := readLoopAux recv (idx + 1) acc2 fuel
          (r.1, r.2 + 1)

/--
Resolution of the parsed evaluate response into the returned string
(lines 169-178): `err` first, then `root-ex`, then `value`, with the
literal `"No result"` as the final fallback of `parsed_result.get`.
-/
def resolveResult (p : ParsedResponse) : String :=
  match p.err with
  | some e => "Error: " ++ e
  | none =>
    match p.rootEx with
    | some ex => "Exception: " ++ ex
    | none => p.value.getD "No result"

/--
The try block of `send_to_nrepl` (lines 133-178), returning the string the
function produces together with the `sendall` actions it performed, with
each raised fault routed through the matching except clause
(lines 180-185).
-/
def send_try (code : String) (net : NetBehavior) : String × List Action :=
  match net.connectFault with
  | some f => (describeFault f, [])
  | none =>
    match net.sessionResp with
    | Except.error f => (describeFault f, [Action.send make_session_request])
    | Except.ok sresp =>
      let session_id := (parse_bencode_response sresp).newSession
      if optFalsy session_id then
        ("Error: Could not create nREPL session", [Action.send make_session_request])
      else
        let sent := [Action.send make_session_request,
                     Action.send (make_eval_request code (session_id.getD ""))]
        match (readLoopAux net.evalRecv 0 "" 100).1 with
        | Except.error f => (describeFault f, sent)
        | Except.ok buf => (resolveResult (parse_bencode_response buf), sent)

/--
`send_to_nrepl` (lines 120-192): the try/except body followed by the
finally clause, which closes the socket on every path (the socket object
exists from line 135 on, and `sock.close()` itself is wrapped so it cannot
re-raise).
-/
def send_to_nrepl (code : String) (net : NetBehavior) : String × List Action :=
  let r := send_try code net
  (r.1, r.2 ++ [Action.close])

/-- Python's substring test `needle in hay` on a character list. -/
def listInfix (needle : List Char) : List Char → Bool
  | [] => needle.isEmpty
  | c :: rest => needle.isPrefixOf (c :: rest) || listInfix needle rest

/-- Python's substring test `needle in hay` on strings. -/
def strContains (needle hay : String) : Bool :=
  listInfix needle.toList hay.toList

/-- Python's `s.startswith(p)`, at the character level. -/
def pyStartsWith (s p : String) : Bool :=
  p.toList.isPrefixOf s.toList

/-- Helper for `pySplitLines`: splits at each newline, accumulating the
current piece in reverse. -/
def splitLinesAux : List Char → List Char → List String
  | [], cur => [String.mk cur.reverse]
  | c :: rest, cur =>
    if c = '\n' then String.mk cur.reverse :: splitLinesAux rest []
    else splitLinesAux rest (c :: cur)

/-- Python's `s.split('\n')`: pieces between newlines, keeping empty pieces
(so `"".split` gives `[""]` and a trailing newline yields a final `""`). -/
def pySplitLines (s : String) : List String :=
  splitLinesAux s.toList []

/-- Python's `"\n".join(lines)`. -/
def pyJoinLines : List String → String
  | [] => ""
  | [s] => s
  | s :: t :: rest => s ++ "\n" ++ pyJoinLines (t :: rest)

/-- The whitelist of substrings kept by the traceback filter (line 212). -/
def traceWhitelist : List String :=
  ["File ", "Error:", "Exception:", "message:", "line ", "phase:"]

/-- `any(x in line for x in [...])` (line 212): the line survives the filter
when it contains at least one whitelist substring. -/
def lineMatches (line : String) : Bool :=
  traceWhitelist.any fun x => strContains x line

/--
`pretty_print_result` (lines 194-222).  The pygments call of the non-error
branch (with its own exception fallback to the raw result) is abstracted as
the total function `highlighter`; the decided claims concern only the error
branch.
-/
def pretty_print_result (highlighter : String → String) (result : String) : String :=
  if pyStartsWith result "Error:" || pyStartsWith result "Exception:" then
    if strContains "Traceback" result then
      pyJoinLines ((pySplitLines result).filter lineMatches)
    else result
  else highlighter result

/--
`check_connection` (lines 307-322): evaluate the fixed expression
`(+ 1 1)` through `send_to_nrepl` and compare the text to `"2"`.  The
timestamp (`datetime.now().strftime(...)`) is abstracted as the parameter
`ts`; the except clause is unreachable because `send_to_nrepl` never raises
and `strftime` on a fixed format does not either.
-/
def check_connection (net : NetBehavior) (ts : String) : String :=
  let result := (send_to_nrepl "(+ 1 1)" net).1
  if result = "2" then
    "✅ Connection successful at " ++ ts
  else
    "⚠️ Connection issue at " ++ ts ++ ". Server responded but with unexpected result: " ++ result

/-- A value handled by one of the scalar branches of the encoder's if/elif
chain: a string, an integer or a boolean. -/
def isScalar : PyVal → Bool
  | PyVal.str _ => true
  | PyVal.int _ => true
  | PyVal.bool _ => true
  | _ => false

/-! Helper lemmas shared by the claim theorems. -/

theorem strEmptyAppend : ∀ (s : String), "" ++ s = s
  | ⟨_⟩ => rfl

theorem strAppendEmpty : ∀ (s : String), s ++ "" = s
  | ⟨l⟩ => congrArg String.mk (List.append_nil l)

theorem strAppendAssoc : ∀ (a b c : String), a ++ b ++ c = a ++ (b ++ c)
  | ⟨la⟩, ⟨lb⟩, ⟨lc⟩ => congrArg String.mk (List.append_assoc la lb lc)

theorem bencode_encode_entries_append (l1 l2 : List (String × PyVal)) :
    bencode_encode_entries (l1 ++ l2) =
      bencode_encode_entries l1 ++ bencode_encode_entries l2 := by
  induction l1 with
  | nil => simp [bencode_encode_entries, strEmptyAppend]
  | cons hd tl ih =>
    obtain ⟨k, v⟩ := hd
    simp [bencode_encode_entries, ih, strAppendAssoc]

theorem bencode_encode_entries_mem (k : String) (v : PyVal)
    (m : List (String × PyVal)) (hmem : (k, v) ∈ m) :
    ∃ pre post,
      bencode_encode_entries m =
        pre ++ (toString k.length ++ ":" ++ k ++ bencode_encode_val v) ++ post := by
  induction m with
  | nil => cases hmem
  | cons hd tl ih =>
    obtain ⟨k2, v2⟩ := hd
    cases hmem with
    | head =>
      refine ⟨"", bencode_encode_entries tl, ?_⟩
      simp [bencode_encode_entries, strEmptyAppend, strAppendAssoc]
    | tail _ h =>
      obtain ⟨pre, post, hp⟩ := ih h
      refine ⟨toString k2.length ++ ":" ++ k2 ++ bencode_encode_val v2 ++ pre, post, ?_⟩
      simp [bencode_encode_entries, hp, strAppendAssoc]

theorem readLoopAux_count_le (recv : Nat → Except SockFault String) (fuel : Nat) :
    ∀ (idx : Nat) (acc : String), (readLoopAux recv idx acc fuel).2 ≤ fuel := by
  induction fuel with
  | zero => intro idx acc; simp [readLoopAux]
  | succ n ih =>
    intro idx acc
    simp only [readLoopAux]
    cases recv idx with
    | error f => simp
    | ok data =>
      by_cases hd : data = ""
      · simp [hd]
      · by_cases hs : (parse_bencode_response (acc ++ data)).statusDone
        · simp [hd, hs]
        · have h := ih (idx + 1) (acc ++ data)
          simp [hd, hs]
          omega

/-! Claim theorems. -/

/--
C1: the final decoded field mapping is resolved with fixed priority: an
`err` field yields the error string with the `Error: ` prefix; otherwise a
`root-ex` field yields the exception string with the `Exception: ` prefix;
otherwise a `value` field yields the value text; otherwise the literal
`"No result"`.  In particular a mapping with both `err` and `value`
resolves to the error, never the value.
-/
theorem C1_resolution_priority (p : ParsedResponse) :
    (∀ e, p.err = some e → resolveResult p = "Error: " ++ e) ∧
    (p.err = none → ∀ x, p.rootEx = some x → resolveResult p = "Exception: " ++ x) ∧
    (p.err = none → p.rootEx = none → ∀ v, p.value = some v → resolveResult p = v) ∧
    (p.err = none → p.rootEx = none → p.value = none → resolveResult p = "No result") := by
  obtain ⟨ns, v, sd, e, x⟩ := p
  cases e <;> cases x <;> cases v <;> simp [resolveResult]

/-- Witness for C1 at a mapping carrying both an `err` and a `value` field:
resolution yields the error string built from `err`, not the value. -/
theorem C1_resolution_priority_witness :
    resolveResult ⟨none, some "5", false, some "boom", none⟩ = "Error: " ++ "boom" :=
  (C1_resolution_priority ⟨none, some "5", false, some "boom", none⟩).1 "boom" rfl

/--
C4: the source intends a boolean `True` to encode as the bencode integer
`i1e` and `False` as `i0e` (the `elif isinstance(v, bool)` branches exist
for exactly that), but because `bool` is a subclass of `int` in Python the
preceding integer branch captures booleans and renders `str(v)`, producing
`iTruee` / `iFalsee` — which is not even well-formed bencode.  This theorem
evaluates the encoder at the failing inputs, at top level and inside a
list value.
-/
theorem C4_bool_encoding_divergence :
    bencode_encode [("verbose", PyVal.bool true)] = "d7:verboseiTrueee" ∧
    bencode_encode [("verbose", PyVal.bool true)] ≠ "d7:verbosei1ee" ∧
    bencode_encode_list [PyVal.bool false] = "iFalsee" ∧
    bencode_encode_list [PyVal.bool false] ≠ "i0e" := by
  refine ⟨by decide, by decide, by decide, by decide⟩

/--
C8: on every exit path of `send_to_nrepl` — normal value, error string, or
a fault raised at any modelled step after the socket is created — the last
socket action is `close`: the finally clause closes the socket before the
function returns.
-/
theorem C8_socket_closed_on_every_path (code : String) (net : NetBehavior) :
    ((send_to_nrepl code net).2).getLast? = some Action.close := by
  simp [send_to_nrepl]

/--
C10: a mapping entry whose value has a type outside string/integer/boolean/
list still contributes its `<length>:<key>` marker, but no value encoding
at all: in the output the key is immediately followed by the next entry or
the closing marker, the key is not omitted, and the (total) encoder does
not fail.
-/
theorem C10_unsupported_value_emits_bare_key (pre post : List (String × PyVal)) (k : String) :
    bencode_encode_val PyVal.other = "" ∧
    bencode_encode (pre ++ (k, PyVal.other) :: post) =
      "d" ++ bencode_encode_entries pre ++ (toString k.length ++ ":" ++ k) ++
        bencode_encode_entries post ++ "e" := by
  refine ⟨rfl, ?_⟩
  simp [bencode_encode, bencode_encode_entries_append, bencode_encode_entries,
    bencode_encode_val, strAppendEmpty, strAppendAssoc]

/--
C2: the evaluate read loop terminates within its bound of 100 `recv`
calls for every response stream, and even when the loop ends with a buffer
in which no `value` (nor `err`, nor `root-ex`) field ever arrived,
`send_to_nrepl` still returns a result string — the fallback
`"No result"`.
-/
theorem C2_read_loop_bounded_with_fallback (code : String) (net : NetBehavior)
    (sresp buf : String)
    (hconn : net.connectFault = none)
    (hsess : net.sessionResp = Except.ok sresp)
    (hsid : optFalsy (parse_bencode_response sresp).newSession = false)
    (hloop : (readLoopAux net.evalRecv 0 "" 100).1 = Except.ok buf)
    (he : (parse_bencode_response buf).err = none)
    (hx : (parse_bencode_response buf).rootEx = none)
    (hv : (parse_bencode_response buf).value = none) :
    (readLoopAux net.evalRecv 0 "" 100).2 ≤ 100 ∧
    (send_to_nrepl code net).1 = "No result" := by
  refine ⟨readLoopAux_count_le net.evalRecv 100 0 "", ?_⟩
  simp [send_to_nrepl, send_try, hconn, hsess, hsid, hloop, resolveResult, he, hx, hv]

/-- Witness for C2: a stream whose first read returns zero bytes ends the
loop after one read with an empty buffer, and the call returns the
`"No result"` fallback. -/
theorem C2_read_loop_bounded_with_fallback_witness :
    (readLoopAux (fun _ => Except.ok "") 0 "" 100).2 ≤ 100 ∧
    (send_to_nrepl "(+ 1 1)"
        ⟨none, Except.ok "d11:new-session3:abce", fun _ => Except.ok ""⟩).1 = "No result" :=
  C2_read_loop_bounded_with_fallback "(+ 1 1)"
    ⟨none, Except.ok "d11:new-session3:abce", fun _ => Except.ok ""⟩
    "d11:new-session3:abce" "" rfl rfl (by decide) rfl (by decide) (by decide) (by decide)

/--
C3: for a request mapping whose values are all scalars (string, integer or
boolean), the encoded bytes contain, for every key of the mapping, that
key's field-marker pattern — `<keyLength>:<key>` immediately followed by
the encoded value — so a scan for the pattern recovers the original value
bytes of every key.
-/
theorem C3_encode_scan_recovers_fields (m : List (String × PyVal)) (k : String) (v : PyVal)
    (_hscalar : ∀ p ∈ m, isScalar p.2 = true)
    (hmem : (k, v) ∈ m) :
    ∃ pre post,
      bencode_encode m =
        pre ++ (toString k.length ++ ":" ++ k ++ bencode_encode_val v) ++ post := by
  obtain ⟨pre, post, hp⟩ := bencode_encode_entries_mem k v m hmem
  refine ⟨"d" ++ pre, post ++ "e", ?_⟩
  simp [bencode_encode, hp, strAppendAssoc]

/-- Witness for C3 at the concrete mapping of the clone request: the key
`op` with value `"clone"` is recoverable from the encoded bytes. -/
theorem C3_encode_scan_recovers_fields_witness :
    ∃ pre post,
      bencode_encode [("op", PyVal.str "clone"), ("verbose", PyVal.int 1)] =
        pre ++ (toString ("op" : String).length ++ ":" ++ "op" ++
          bencode_encode_val (PyVal.str "clone")) ++ post :=
  C3_encode_scan_recovers_fields [("op", PyVal.str "clone"), ("verbose", PyVal.int 1)]
    "op" (PyVal.str "clone")
    (by decide) (by exact List.mem_cons_self _ _)

/--
C6: when the decoded session-create response carries no `new-session`
field, `send_to_nrepl` returns the literal
`"Error: Could not create nREPL session"`, and its socket trace is exactly
the one session-create send followed by the close: the evaluate request is
never sent and nothing is retried.
-/
theorem C6_session_failure_sends_no_eval (code : String) (net : NetBehavior) (sresp : String)
    (hconn : net.connectFault = none)
    (hsess : net.sessionResp = Except.ok sresp)
    (hns : (parse_bencode_response sresp).newSession = none) :
    (send_to_nrepl code net).1 = "Error: Could not create nREPL session" ∧
    (send_to_nrepl code net).2 = [Action.send make_session_request, Action.close] := by
  have hf : optFalsy (parse_bencode_response sresp).newSession = true := by
    rw [hns]; rfl
  constructor <;> simp [send_to_nrepl, send_try, hconn, hsess, hf]

/-- Witness for C6: the empty-dictionary session response `de` has no
`new-session` field; the call fails with the session error and the trace
holds a single send. -/
theorem C6_session_failure_sends_no_eval_witness :
    (send_to_nrepl "x" ⟨none, Except.ok "de", fun _ => Except.ok ""⟩).1 =
      "Error: Could not create nREPL session" ∧
    (send_to_nrepl "x" ⟨none, Except.ok "de", fun _ => Except.ok ""⟩).2 =
      [Action.send make_session_request, Action.close] :=
  C6_session_failure_sends_no_eval "x" ⟨none, Except.ok "de", fun _ => Except.ok ""⟩
    "de" rfl rfl (by decide)

/--
C7: every socket-level fault is converted to a descriptive string at the
transport boundary instead of propagating: a fault at connect yields the
matching except clause's string (refusal and timeout each yield their
specific message, any other exception an `Error: `-prefixed message), and
a fault on the session read is converted the same way.
-/
theorem C7_faults_become_strings (code : String) (net : NetBehavior) (f : SockFault)
    (hconn : net.connectFault = some f) :
    (send_to_nrepl code net).1 = describeFault f ∧
    describeFault SockFault.timeout = "Error: nREPL connection timed out" ∧
    describeFault SockFault.connRefused =
      "Error: nREPL connection refused. Is the nREPL server running?" ∧
    (∃ rest, describeFault f = "Error: " ++ rest) ∧
    (∀ (net2 : NetBehavior) (g : SockFault), net2.connectFault = none →
      net2.sessionResp = Except.error g → (send_to_nrepl code net2).1 = describeFault g) := by
  refine ⟨by simp [send_to_nrepl, send_try, hconn], rfl, rfl, ?_, ?_⟩
  · cases f with
    | timeout => exact ⟨"nREPL connection timed out", by decide⟩
    | connRefused => exact ⟨"nREPL connection refused. Is the nREPL server running?", by decide⟩
    | other m => exact ⟨m, rfl⟩
  · intro net2 g h1 h2
    simp [send_to_nrepl, send_try, h1, h2]

/-- Witness for C7: connecting to a refusing server returns the refusal
message rather than raising. -/
theorem C7_faults_become_strings_witness :
    (send_to_nrepl "x" ⟨some SockFault.connRefused, Except.ok "", fun _ => Except.ok ""⟩).1 =
      describeFault SockFault.connRefused :=
  (C7_faults_become_strings "x"
    ⟨some SockFault.connRefused, Except.ok "", fun _ => Except.ok ""⟩
    SockFault.connRefused rfl).1

/--
C9: `check_connection` evaluates the fixed expression `(+ 1 1)` through
`send_to_nrepl`; a resulting text equal to the literal `"2"` yields the
timestamped success line, and any other textual result yields the
timestamped warning line that quotes that result — not a hard failure.
-/
theorem C9_liveness_check (net : NetBehavior) (ts : String) :
    ((send_to_nrepl "(+ 1 1)" net).1 = "2" →
      check_connection net ts = "✅ Connection successful at " ++ ts) ∧
    (∀ r, (send_to_nrepl "(+ 1 1)" net).1 = r → r ≠ "2" →
      check_connection net ts =
        "⚠️ Connection issue at " ++ ts ++
          ". Server responded but with unexpected result: " ++ r) := by
  constructor
  · intro h
    simp [check_connection, h]
  · intro r hr hne
    simp [check_connection, hr, hne]

/-- Witness for C9: a server answering the evaluate request with value `2`
makes the liveness check report the success line. -/
theorem C9_liveness_check_witness :
    check_connection
      ⟨none, Except.ok "d11:new-session3:abce",
        fun _ => Except.ok "d5:value1:26:statusl4:doneee"⟩ "T" =
      "✅ Connection successful at " ++ "T" :=
  (C9_liveness_check
    ⟨none, Except.ok "d11:new-session3:abce",
      fun _ => Except.ok "d5:value1:26:statusl4:doneee"⟩ "T").1 (by decide)

/--
C5 counterexample: `"Error: x\nboring stuff"` is a multi-line message
beginning with `Error:` whose first line matches the whitelist and whose
second does not, yet — because it does not contain the substring
`Traceback`, which is what actually gates the filter — the output is the
unfiltered message: it still contains the non-matching line, refuting the
claim that the output holds exactly the matching lines.
-/
theorem C5_trace_filtering_counterexample :
    pyStartsWith "Error: x\nboring stuff" "Error:" = true ∧
    lineMatches "Error: x" = true ∧
    lineMatches "boring stuff" = false ∧
    pretty_print_result (fun s => s) "Error: x\nboring stuff" = "Error: x\nboring stuff" ∧
    strContains "boring stuff" (pretty_print_result (fun s => s) "Error: x\nboring stuff") = true := by
  refine ⟨by decide, by decide, by decide, by decide, by decide⟩

/--
C5 (amended): for a message beginning with `Error:` or `Exception:` that
contains the substring `Traceback`, the filtered output is exactly the
lines matching the whitelist substrings, in their original order (the
order-preserving `filter` over the split lines).
-/
theorem C5_trace_filtering (highlighter : String → String) (result : String)
    (herr : pyStartsWith result "Error:" = true ∨ pyStartsWith result "Exception:" = true)
    (htb : strContains "Traceback" result = true) :
    pretty_print_result highlighter result =
      pyJoinLines ((pySplitLines result).filter lineMatches) := by
  unfold pretty_print_result
  rcases herr with h | h <;> simp [h, htb]

/-- Witness for C5 on a concrete traceback-shaped message: the output is
the whitelist-matching lines in order. -/
theorem C5_trace_filtering_witness :
    strContains "Traceback"
      "Error: boom\nTraceback (most recent call last):\n  File q, line 1\njunk" = true ∧
    pretty_print_result (fun s => s)
        "Error: boom\nTraceback (most recent call last):\n  File q, line 1\njunk" =
      pyJoinLines ((pySplitLines
        "Error: boom\nTraceback (most recent call last):\n  File q, line 1\njunk").filter
          lineMatches) :=
  ⟨by decide,
   C5_trace_filtering (fun s => s)
     "Error: boom\nTraceback (most recent call last):\n  File q, line 1\njunk"
     (Or.inl (by decide)) (by decide)⟩

end NreplBridge
